import Mathlib

/-!
Verification of the vertex chat server against its natural-language
specification.  The definitions below are a shallow embedding of the
server code: identifiers are opaque values modelled as naturals, database
tables are association lists, actor handlers are pure state-passing
functions, and panics or unimplemented bodies are modelled as the absence
of a result.  Where a definition embeds code that is absent from the
repository snapshot (only callers or declarations are present), its doc
comment says so and the definition follows the words of the specification.
-/

set_option autoImplicit false

namespace Vertex

/-- Opaque 128-bit user identifier, modelled as a natural number. -/
abbrev UserId := Nat

/-- Opaque 128-bit device identifier, modelled as a natural number. -/
abbrev DeviceId := Nat

/-- Message identifier, modelled as a natural number. -/
abbrev MessageId := Nat

/-- Community identifier, modelled as a natural number. -/
abbrev CommunityId := Nat

/-- Room identifier, modelled as a natural number. -/
abbrev RoomId := Nat

/-! ## Community actor (src/server/src/community.rs)

The community actor state holds the loaded rooms and the online member
table: a map from user id to that members online devices, embedded as
association lists.  Session mailbox addresses are identified by the
device id that owns them, since the code always pairs the two.
-/

/-- A member and all their online devices (community.rs, struct OnlineMember). -/
structure OnlineMember where
  devices : List DeviceId
  deriving Repr, DecidableEq

/-- A room loaded into memory (community.rs, struct Room). -/
structure Room where
  name : String
  deriving Repr, DecidableEq

/-- State owned by CommunityActor (community.rs lines 32-35). -/
structure CommunityActorState where
  rooms : List (RoomId × Room)
  online_members : List (UserId × OnlineMember)
  deriving Repr, DecidableEq

/-- All (user, device) pairs present in the online member table. -/
def onlinePairs (st : CommunityActorState) : List (UserId × DeviceId) :=
  st.online_members.flatMap (fun um => um.2.devices.map (fun d => (um.1, d)))

/-- Recipients of the fanout performed by the handler of
IdentifiedMessage of ClientSentMessage (community.rs lines 94-97):
the code iterates over all online members, flattens their device lists,
filters out the author device, and sends to each remaining device. -/
def fanoutPairs (st : CommunityActorState) (from_device : DeviceId) :
    List (UserId × DeviceId) :=
  st.online_members.flatMap
    (fun um => ((um.2.devices.filter (fun d => d ≠ from_device)).map (fun d => (um.1, d))))

/-- Outcome of the ClientSentMessage handler: the fanout recipients, the
value returned to the origin, and the message store after handling. -/
structure SendOutcome where
  recipients : List (UserId × DeviceId)
  confirmationId : MessageId
  store : List MessageId
  deriving Repr, DecidableEq

/-- Handler of IdentifiedMessage of ClientSentMessage for CommunityActor
(community.rs lines 82-101).  The code forwards the message to every
online device except the author device and then returns
Ok(MessageId(Uuid::new_v4())); the fresh random uuid is passed in as
freshId.  The body performs no store operation at all, so the message
store component is returned unchanged. -/
def handleClientSentMessage (store : List MessageId) (st : CommunityActorState)
    (from_device : DeviceId) (freshId : MessageId) : SendOutcome :=
  { recipients := fanoutPairs st from_device
    confirmationId := freshId
    store := store }

/-! ## Wire error taxonomy

Modelled from the spec: the vertex_common crate of this snapshot predates
the request protocol, so the ErrResponse enumeration is taken from the
error taxonomy of section 6 of the spec (only the kinds the embedded
handlers produce are listed). -/

/-- Wire-level error response kinds (spec section 6). -/
inductive ErrResponse where
  | internal
  | invalidCommunity
  | invalidRoom
  | invalidUser
  | invalidMessageSelector
  | invalidInviteCode
  | tooManyInviteCodes
  | accessDenied
  | alreadyInCommunity
  | usernameAlreadyExists
  | incorrectUsernameOrPassword
  | invalidUsername
  | invalidDisplayName
  | invalidPassword
  | userDeleted
  | deviceDoesNotExist
  deriving Repr, DecidableEq

/-- The Join message of community.rs (line 26): it carries only the user. -/
structure JoinMsg where
  user : UserId
  deriving Repr, DecidableEq

/-- Handler of Join for CommunityActor (community.rs lines 124-131).  The
body is literally unimplemented!(), which panics and never produces a
value; a panic is embedded as none. -/
def handleJoin (_st : CommunityActorState) (_j : JoinMsg) :
    Option (CommunityActorState × Bool) :=
  none

/-! ## Message history queries (RequestHandler::get_room_update,
src/server/src/client/session/regular_user.rs lines 403-452)

The message persistence module of the database is absent from this
snapshot (the database directory has no messages module), so the store
side is modelled from the spec contract of section 4.2; the handler
itself is embedded from the source. -/

/-- Inclusive or exclusive reference bound of a message selector
(spec section 4.2). -/
inductive MsgBound where
  | inclusive (id : MessageId)
  | exclusive (id : MessageId)
  deriving Repr, DecidableEq

/-- Message selector as used by the embedded handlers (spec section 4.2);
only the Before and After forms are exercised by get_room_update. -/
inductive MessageSelector where
  | before (b : MsgBound)
  | after (b : MsgBound)
  deriving Repr, DecidableEq

/-- Messages of one room, as the list of message ids in ascending
(time-ordered) id order. -/
structure RoomStore where
  messages : List MessageId
  deriving Repr, DecidableEq

/-- The reference message id of a bound. -/
def MsgBound.ref : MsgBound → MessageId
  | .inclusive id => id
  | .exclusive id => id

/-- The reference message id of a selector. -/
def MessageSelector.ref : MessageSelector → MessageId
  | .before b => b.ref
  | .after b => b.ref

/-- Modelled from the spec: Store.get_messages (section 4.2), whose
implementation is absent from this snapshot.  It fails with
InvalidMessageSelector if the reference message is absent, and otherwise
returns at most count messages matching the selector, newest to oldest. -/
def get_messages (store : RoomStore) (selector : MessageSelector) (count : Nat) :
    Except ErrResponse (List MessageId) :=
  if store.messages.contains selector.ref then
    let matching :=
      match selector with
      | .after (.exclusive x) => store.messages.filter (fun m => x < m)
      | .after (.inclusive x) => store.messages.filter (fun m => x ≤ m)
      | .before (.exclusive x) => store.messages.filter (fun m => m < x)
      | .before (.inclusive x) => store.messages.filter (fun m => m ≤ x)
    .ok (matching.reverse.take count)
  else
    .error .invalidMessageSelector

/-- Modelled from the spec: Database.get_newest_message, absent from this
snapshot; returns the id of the newest message of the room, if any. -/
def get_newest_message (store : RoomStore) : Option MessageId :=
  store.messages.getLast?

/-- The RoomUpdate response (spec section 4.2): last_read, the continuity
flag and the batch of new messages, newest to oldest. -/
structure RoomUpdate where
  last_read : Option MessageId
  continuous : Bool
  new_messages : List MessageId
  deriving Repr, DecidableEq

/-- RequestHandler::get_room_update (regular_user.rs lines 403-452),
embedded from the source: check in_room, fetch the newest message and the
last_read state, build the selector (After exclusive last_received when
given, otherwise Before inclusive newest, otherwise none), fetch at most
message_count messages, and set continuous to whether fewer than
message_count messages were fetched (line 443). -/
def get_room_update (in_room : Bool) (store : RoomStore)
    (last_read : Option MessageId) (last_received : Option MessageId)
    (message_count : Nat) : Except ErrResponse RoomUpdate :=
  if !in_room then .error .invalidRoom else
  let newest_message := get_newest_message store
  let selector : Option MessageSelector :=
    match last_received, newest_message with
    | some lr, _ => some (.after (.exclusive lr))
    | none, some nm => some (.before (.inclusive nm))
    | none, none => none
  let fetched : Except ErrResponse (List MessageId) :=
    match selector with
    | some sel => get_messages store sel message_count
    | none => .ok []
  match fetched with
  | .error e => .error e
  | .ok new_messages =>
      .ok { last_read := last_read
            continuous := decide (new_messages.length < message_count)
            new_messages := new_messages }

/-! ## Users table (src/server/src/database/user.rs)

The users table is embedded as a list of records; every statement of
user.rs is a single UPDATE or INSERT whose row count the code inspects,
embedded here as a pure transformation of the list together with the
reported outcome.  A statement that fails (unique violation) leaves the
table unchanged, as the aborted SQL statement does. -/

/-- One row of the users table (user.rs lines 7-30). -/
structure UserRecord where
  id : UserId
  username : String
  display_name : String
  profile_version : Nat
  password_hash : String
  hash_scheme_version : Nat
  compromised : Bool
  locked : Bool
  banned : Bool
  deriving Repr, DecidableEq

/-- The users table. -/
abbrev UsersTable := List UserRecord

/-- Error outcome of Database::change_username (user.rs lines 90-93). -/
inductive ChangeUsernameError where
  | nonexistentUser
  | usernameConflict
  deriving Repr, DecidableEq

/-- UserRecord::new (user.rs lines 33-50): fresh users start at
profile_version 0 with no compromised, locked or banned flag. -/
def newUserRecord (id : UserId) (username display_name password_hash : String)
    (hash_scheme_version : Nat) : UserRecord :=
  { id := id, username := username, display_name := display_name
    profile_version := 0, password_hash := password_hash
    hash_scheme_version := hash_scheme_version
    compromised := false, locked := false, banned := false }

/-- Database::change_username (user.rs lines 174-207): UPDATE users SET
username, profile_version = profile_version + 1 WHERE id = user.  A
unique violation on username aborts the statement and reports a conflict;
zero affected rows reports a nonexistent user. -/
def change_username (tbl : UsersTable) (user : UserId) (new_username : String) :
    UsersTable × Option ChangeUsernameError :=
  if tbl.any (fun r => r.id == user) then
    if tbl.any (fun r => !(r.id == user) && r.username == new_username) then
      (tbl, some .usernameConflict)
    else
      (tbl.map (fun r =>
          if r.id == user then
            { r with username := new_username
                     profile_version := r.profile_version + 1 }
          else r),
        none)
  else
    (tbl, some .nonexistentUser)

/-- Database::change_display_name (user.rs lines 209-232): UPDATE users
SET display_name, profile_version = profile_version + 1 WHERE id = user;
zero affected rows reports a nonexistent user. -/
def change_display_name (tbl : UsersTable) (user : UserId)
    (new_display_name : String) : UsersTable × Option ChangeUsernameError :=
  if tbl.any (fun r => r.id == user) then
    (tbl.map (fun r =>
        if r.id == user then
          { r with display_name := new_display_name
                   profile_version := r.profile_version + 1 }
        else r),
      none)
  else
    (tbl, some .nonexistentUser)

/-- Database::change_password (user.rs lines 234-261): UPDATE users SET
password_hash, hash_scheme_version, compromised = false WHERE id = user;
zero affected rows reports a nonexistent user. -/
def db_change_password (tbl : UsersTable) (user : UserId)
    (new_password_hash : String) (hash_scheme_version : Nat) :
    UsersTable × Option ChangeUsernameError :=
  if tbl.any (fun r => r.id == user) then
    (tbl.map (fun r =>
        if r.id == user then
          { r with password_hash := new_password_hash
                   hash_scheme_version := hash_scheme_version
                   compromised := false }
        else r),
      none)
  else
    (tbl, some .nonexistentUser)

/-- Database::set_banned (user.rs lines 263-280). -/
def set_banned (tbl : UsersTable) (user : UserId) (banned : Bool) :
    UsersTable × Option ChangeUsernameError :=
  if tbl.any (fun r => r.id == user) then
    (tbl.map (fun r => if r.id == user then { r with banned := banned } else r), none)
  else
    (tbl, some .nonexistentUser)

/-- Database::set_locked (user.rs lines 282-299). -/
def set_locked (tbl : UsersTable) (user : UserId) (locked : Bool) :
    UsersTable × Option ChangeUsernameError :=
  if tbl.any (fun r => r.id == user) then
    (tbl.map (fun r => if r.id == user then { r with locked := locked } else r), none)
  else
    (tbl, some .nonexistentUser)

/-- Database::create_user (user.rs lines 131-172): INSERT ON CONFLICT DO
NOTHING; zero inserted rows (an id or username conflict) reports a
conflict. -/
def create_user (tbl : UsersTable) (rec : UserRecord) :
    UsersTable × Option ChangeUsernameError :=
  if tbl.any (fun r => r.id == rec.id || r.username == rec.username) then
    (tbl, some .usernameConflict)
  else
    (tbl ++ [rec], none)

/-- Every operation of user.rs that writes the users table. -/
inductive UserOp where
  | opChangeUsername (user : UserId) (newName : String)
  | opChangeDisplayName (user : UserId) (newName : String)
  | opChangePassword (user : UserId) (hash : String) (hsv : Nat)
  | opSetBanned (user : UserId) (b : Bool)
  | opSetLocked (user : UserId) (b : Bool)
  | opCreateUser (rec : UserRecord)
  deriving Repr, DecidableEq

/-- The users table after an operation (the outcome is dropped). -/
def applyUserOp (op : UserOp) (tbl : UsersTable) : UsersTable :=
  match op with
  | .opChangeUsername u n => (change_username tbl u n).1
  | .opChangeDisplayName u n => (change_display_name tbl u n).1
  | .opChangePassword u h v => (db_change_password tbl u h v).1
  | .opSetBanned u b => (set_banned tbl u b).1
  | .opSetLocked u b => (set_locked tbl u b).1
  | .opCreateUser rec => (create_user tbl rec).1

/-- profile_version of a user as the database reads it back: the first
row whose id matches. -/
def versionOf : UsersTable → UserId → Option Nat
  | [], _ => none
  | r :: rest, u => if r.id == u then some r.profile_version else versionOf rest u

/-! ## Session registry and login (src/server/src/main.rs lines 302-332)

The session registry module (client::session with insert, upgrade and
remove_and_notify) is absent from this snapshot; only its caller, the
login function of main.rs, is present.  The slot type and the three
transitions are modelled from the spec, section 4.4; the login flow is
embedded from main.rs. -/

/-- Modelled from the spec: a registry slot (section 4.4) is Inserting
(credentials verified, socket not yet upgraded), Active with the session
handle, or a Logout tombstone. -/
inductive SessionSlot where
  | inserting
  | active (handle : Nat)
  | loggedOut
  deriving Repr, DecidableEq

/-- The process-wide registry keyed by (user, device), embedded as an
association list. -/
abbrev SessionRegistry := List ((UserId × DeviceId) × SessionSlot)

/-- The slot stored for a key: the first matching entry. -/
def slotOf : SessionRegistry → UserId → DeviceId → Option SessionSlot
  | [], _, _ => none
  | e :: rest, u, d => if e.1 = (u, d) then some e.2 else slotOf rest u d

/-- Modelled from the spec: SessionManager.insert (section 4.4)
atomically claims the slot if empty or Logout and rejects with TokenInUse
if the slot is Active or already Inserting. -/
def registryInsert (reg : SessionRegistry) (u : UserId) (d : DeviceId) :
    Except Unit SessionRegistry :=
  match slotOf reg u d with
  | none => .ok (reg ++ [((u, d), .inserting)])
  | some .loggedOut =>
      .ok (reg.map (fun e => if e.1 = (u, d) then (e.1, .inserting) else e))
  | some .inserting => .error ()
  | some (.active _) => .error ()

/-- Modelled from the spec: SessionManager.upgrade (section 4.4) replaces
Inserting with Active and does nothing if the slot was removed in the
interim. -/
def registryUpgrade (reg : SessionRegistry) (u : UserId) (d : DeviceId)
    (handle : Nat) : SessionRegistry :=
  reg.map (fun e =>
    if e.1 = (u, d) then
      (e.1, match e.2 with | .inserting => SessionSlot.active handle | s => s)
    else e)

/-- Modelled from the spec: SessionManager.remove_and_notify
(section 4.4) replaces the slot with Logout and delivers SessionLoggedOut
to the handle if it was Active; the second component lists the handles
that received SessionLoggedOut. -/
def removeAndNotify (reg : SessionRegistry) (u : UserId) (d : DeviceId) :
    SessionRegistry × List Nat :=
  (reg.map (fun e => if e.1 = (u, d) then (e.1, .loggedOut) else e),
    match slotOf reg u d with
    | some (.active h) => [h]
    | _ => [])

/-- Authentication error of interest to the login route. -/
inductive AuthErr where
  | tokenInUse
  deriving Repr, DecidableEq

/-- The login route of main.rs (lines 302-332), embedded from the source
for the case where token authentication succeeds: it calls
client::session::insert and answers AuthError::TokenInUse if that is
rejected; on success the upgraded websocket registers the Active handle.
The second component lists the handles that received SessionLoggedOut
during the call: the route never sends any. -/
def login (reg : SessionRegistry) (u : UserId) (d : DeviceId) (handle : Nat) :
    Except AuthErr SessionRegistry × List Nat :=
  match registryInsert reg u d with
  | .error _ => (.error .tokenInUse, [])
  | .ok reg' => (.ok (registryUpgrade reg' u d handle), [])

/-- The registry transitions reachable in the embedded server: logins and
remove_and_notify teardowns (token sweep, password change). -/
inductive RegistryOp where
  | opLogin (u : UserId) (d : DeviceId) (handle : Nat)
  | opRemoveAndNotify (u : UserId) (d : DeviceId)
  deriving Repr, DecidableEq

/-- The registry after one transition. -/
def applyRegistryOp (op : RegistryOp) (reg : SessionRegistry) : SessionRegistry :=
  match op with
  | .opLogin u d h =>
      match (login reg u d h).1 with
      | .ok reg' => reg'
      | .error _ => reg
  | .opRemoveAndNotify u d => (removeAndNotify reg u d).1

/-- The registry reached from boot (empty) by a sequence of transitions. -/
def runRegistryOps (ops : List RegistryOp) : SessionRegistry :=
  ops.foldl (fun reg op => applyRegistryOp op reg) []

/-! ## Login tokens and log_out (src/server/src/database/token.rs lines
156-175 and src/server/src/client/session/regular_user.rs lines 140-154) -/

/-- One row of the login_tokens table, reduced to the columns the
embedded operations read: device (primary key) and user. -/
structure TokenRecord where
  device : DeviceId
  user : UserId
  deriving Repr, DecidableEq

/-- Handler of RevokeToken for the database (token.rs lines 156-175):
DELETE FROM login_tokens WHERE device = $1, reporting whether exactly one
row was deleted (the comment of the source: the result is 1 if the token
existed). -/
def revoke_token (tokens : List TokenRecord) (device : DeviceId) :
    List TokenRecord × Bool :=
  (tokens.filter (fun t => !(t.device == device)),
    tokens.countP (fun t => t.device == device) == 1)

/-- Outcome of RequestHandler::log_out: the wire response, whether
LogoutThisSession was notified, and the token table afterwards. -/
structure LogOutOutcome where
  response : Except ErrResponse Unit
  notified_logout : Bool
  tokens : List TokenRecord
  deriving Repr

/-- RequestHandler::log_out (regular_user.rs lines 140-154): revoke the
token of the requesting device; if the token did not exist answer
DeviceDoesNotExist, otherwise notify LogoutThisSession and answer Ok. -/
def log_out (tokens : List TokenRecord) (device : DeviceId) : LogOutOutcome :=
  let res := revoke_token tokens device
  if res.2 then ⟨.ok (), true, res.1⟩
  else ⟨.error .deviceDoesNotExist, false, res.1⟩

/-! ## Password change (src/server/src/client/session/regular_user.rs
lines 210-235 and src/server/src/database/user.rs lines 234-261)

The auth module (password hashing and validation) is absent from this
snapshot; hashing is modelled from the spec as an opaque digest tagged
with the latest scheme version. -/

/-- Modelled from the spec: the latest version of the password hashing
scheme enum. -/
def latestSchemeVersion : Nat := 1

/-- Modelled from the spec: auth::hash, absent from this snapshot;
hashes a password with the latest scheme, returning hash and version. -/
def hashPassword (password : String) : String × Nat :=
  (String.append "digest:" password, latestSchemeVersion)

/-- Modelled from the spec: auth::valid_password, absent from this
snapshot; the configuration carries the minimum password length. -/
def valid_password (min_password_len : Nat) (password : String) : Bool :=
  min_password_len ≤ password.length

/-- Modelled from the spec: auth::verify_user, absent from this snapshot;
verifies a password against the stored digest. -/
def verify_user (r : UserRecord) (password : String) : Bool :=
  r.password_hash == (hashPassword password).1

/-- The stored state the password-change path touches: the users table
and the login tokens table. -/
structure ServerState where
  users : UsersTable
  tokens : List TokenRecord
  deriving Repr, DecidableEq

/-- RequestHandler::change_password (regular_user.rs lines 210-235):
validate the new password, re-verify the old one (verify_password, lines
67-84), hash the new one and run Database::change_password.  The token
table is passed through untouched, as the source performs no token
operation on this path. -/
def handler_change_password (min_password_len : Nat) (st : ServerState)
    (user : UserId) (old_password new_password : String) :
    ServerState × Except ErrResponse Unit :=
  if !(valid_password min_password_len new_password) then
    (st, .error .invalidPassword)
  else
    match st.users.find? (fun r => r.id == user) with
    | none => (st, .error .invalidUser)
    | some r =>
        if !(verify_user r old_password) then
          (st, .error .incorrectUsernameOrPassword)
        else
          match db_change_password st.users user (hashPassword new_password).1
              (hashPassword new_password).2 with
          | (users', none) => (⟨users', st.tokens⟩, .ok ())
          | (_, some _) => (st, .error .userDeleted)

/-! ## Admin promotion CLI (src/server/src/main.rs lines 253-290 and
src/server/src/database/administrators.rs lines 88-106) -/

/-- AdminPermissionFlags (administrators.rs lines 14-21): ALL = 1,
BAN = 1 <<< 1, as a bitset. -/
def adminFlagsAll : Nat := 1

/-- The state the admin CLI touches: users and the administrators table
mapping user id to permission flag bits. -/
structure AdminDb where
  users : UsersTable
  administrators : List (UserId × Nat)
  deriving Repr, DecidableEq

/-- Database::set_admin_permissions (administrators.rs lines 88-106):
UPDATE administrators SET permission_flags WHERE user_id; reports true
when one row was modified (the user had an administrators row) and false
otherwise (mapped to InvalidUser by the source). -/
def set_admin_permissions (db : AdminDb) (user : UserId) (flags : Nat) :
    AdminDb × Bool :=
  if db.administrators.any (fun a => a.1 == user) then
    ({ db with administrators :=
        db.administrators.map (fun a => if a.1 == user then (a.1, flags) else a) },
      true)
  else
    (db, false)

/-- Outcome of one CLI action of promote_and_demote: the new state, or a
panic, which aborts the process with a nonzero exit code and a diagnostic
on stderr. -/
inductive CliOutcome where
  | ok (db : AdminDb)
  | panicked
  deriving Repr, DecidableEq

/-- The add-admin arm of promote_and_demote (main.rs lines 254-272):
look the username up, panicking if it is unknown, then run
set_admin_permissions with AdminPermissionFlags::ALL, panicking if that
reports an error. -/
def addAdmin (db : AdminDb) (name : String) : CliOutcome :=
  match db.users.find? (fun r => r.username == name) with
  | none => .panicked
  | some r =>
      match set_admin_permissions db r.id adminFlagsAll with
      | (db', true) => .ok db'
      | (_, false) => .panicked

/-- The remove-admin arm of promote_and_demote (main.rs lines 274-289):
look the username up, panicking if it is unknown, then run
set_admin_permissions with empty flags, panicking if that reports an
error. -/
def removeAdmin (db : AdminDb) (name : String) : CliOutcome :=
  match db.users.find? (fun r => r.username == name) with
  | none => .panicked
  | some r =>
      match set_admin_permissions db r.id 0 with
      | (db', true) => .ok db'
      | (_, false) => .panicked

/-! ## Joining by invite code (src/server/src/client/session/regular_user.rs
lines 263-279)

The token permission bits are modelled from the spec (section 3); the
vertex_common crate of this snapshot predates them. -/

/-- Modelled from the spec: TokenPermissionFlags bits (section 3). -/
def SEND_MESSAGES : Nat := 1

/-- Modelled from the spec: TokenPermissionFlags bits (section 3). -/
def JOIN_COMMUNITIES : Nat := 16

/-- TokenPermissionFlags::has_perms: all required bits are set. -/
def has_perms (self required : Nat) : Bool :=
  self &&& required == required

/-- Outcome of RequestHandler::join_community: the wire result (the
community joined on success) and whether the invite-code store was
consulted during handling. -/
structure JoinOutcome where
  response : Except ErrResponse CommunityId
  store_consulted : Bool
  deriving Repr

/-- RequestHandler::join_community (regular_user.rs lines 263-279):
check the JOIN_COMMUNITIES permission, reject codes longer than 11
characters before any store access, then resolve the code in the
invite-code table and continue with join_community_by_id, abstracted as
the continuation joinById. -/
def join_community (perms : Nat) (code : String)
    (invites : List (String × CommunityId))
    (joinById : CommunityId → Except ErrResponse CommunityId) : JoinOutcome :=
  if !(has_perms perms JOIN_COMMUNITIES) then
    ⟨.error .accessDenied, false⟩
  else if code.length > 11 then
    ⟨.error .invalidInviteCode, false⟩
  else
    match invites.find? (fun e => e.1 == code) with
    | some e => ⟨joinById e.2, true⟩
    | none => ⟨.error .invalidInviteCode, true⟩

end Vertex

open Vertex

/-- C2: a message sent by a device is fanned out to exactly the
(user, device) pairs of the online member table other than the author
device; in particular the origin device never receives its own message. -/
theorem fanout_excludes_origin_only (st : CommunityActorState)
    (from_device : DeviceId) (u : UserId) (d : DeviceId) :
    (u, d) ∈ fanoutPairs st from_device ↔
      ((u, d) ∈ onlinePairs st ∧ d ≠ from_device) := by
  simp only [fanoutPairs, onlinePairs, List.mem_flatMap, List.mem_map,
    List.mem_filter, decide_eq_true_eq]
  aesop

/-- C1 (divergence evaluated): handling a client-sent message fans the
message out to online devices while leaving the message store untouched,
and the value returned to the origin is only the fresh random id, with no
persistence and no sent_at timestamp.  Concretely: author device 1 of
user 10, one other online device 2 of user 20, empty store. -/
theorem send_handler_fans_out_without_persisting :
    handleClientSentMessage [] ⟨[], [(10, ⟨[1]⟩), (20, ⟨[2]⟩)]⟩ 1 42
      = { recipients := [(20, 2)], confirmationId := 42, store := [] } := by
  decide

/-- C4: whenever get_room_update answers successfully, the continuous
field of the response is true exactly when the number of returned
messages is strictly below the requested message_count. -/
theorem get_room_update_continuous_iff (in_room : Bool) (store : RoomStore)
    (last_read : Option MessageId) (last_received : Option MessageId)
    (message_count : Nat) (resp : RoomUpdate)
    (h : get_room_update in_room store last_read last_received message_count
          = .ok resp) :
    resp.continuous = true ↔ resp.new_messages.length < message_count := by
  unfold get_room_update at h
  by_cases hin : in_room
  · simp only [hin, Bool.not_true, Bool.false_eq_true, if_neg, ite_false] at h
    rcases hfetch : (match
        (match last_received, get_newest_message store with
          | some lr, _ => some (MessageSelector.after (MsgBound.exclusive lr))
          | none, some nm => some (MessageSelector.before (MsgBound.inclusive nm))
          | none, none => none) with
        | some sel => get_messages store sel message_count
        | none => Except.ok []) with e | msgs <;>
      simp only [hfetch] at h
    · cases h
    · cases h
      simp
  · simp [hin] at h

/-- C4 witness: room with messages 1,2,3, last_received 1, count 5; the
update returns messages 3,2 and continuous is true, matching 2 < 5. -/
theorem get_room_update_continuous_iff_witness :
    (get_room_update true ⟨[1, 2, 3]⟩ none (some 1) 5
        = .ok { last_read := none, continuous := true, new_messages := [3, 2] }) ∧
      (({ last_read := none, continuous := true, new_messages := [3, 2] }
          : RoomUpdate).continuous = true ↔ 2 < 5) :=
  ⟨rfl, get_room_update_continuous_iff true ⟨[1, 2, 3]⟩ none (some 1) 5 _ rfl⟩

/-- An in-place row update by an id-preserving function that adds one to
the profile_version moves the read-back version from v to v + 1. -/
theorem versionOf_map_plus_one (tbl : UsersTable) (u : UserId)
    (f : UserRecord → UserRecord) (hid : ∀ r, (f r).id = r.id)
    (hplus : ∀ r, (f r).profile_version = r.profile_version + 1) :
    versionOf (tbl.map (fun r => if r.id == u then f r else r)) u
      = (versionOf tbl u).map (fun v => v + 1) := by
  induction tbl with
  | nil => rfl
  | cons r rest ih =>
    simp only [List.map_cons]
    by_cases h : (r.id == u) = true
    · simp [versionOf, h, hid r, hplus r]
    · simp only [versionOf, if_neg h]
      exact ih

/-- An in-place row update by an id-preserving, version-nondecreasing
function never lowers the profile_version any user reads back. -/
theorem versionOf_map_ge (tbl : UsersTable) (w u : UserId)
    (f : UserRecord → UserRecord) (hid : ∀ r, (f r).id = r.id)
    (hmono : ∀ r, r.profile_version ≤ (f r).profile_version) :
    ∀ (v v' : Nat), versionOf tbl u = some v →
      versionOf (tbl.map (fun r => if r.id == w then f r else r)) u = some v' →
      v ≤ v' := by
  induction tbl with
  | nil => intro v v' hv _; cases hv
  | cons r rest ih =>
    intro v v' hv hv'
    simp only [List.map_cons, versionOf] at hv hv'
    by_cases hw : (r.id == w) = true
    · rw [if_pos hw] at hv'
      by_cases h : (r.id == u) = true
      · rw [if_pos h] at hv
        rw [if_pos (by rw [hid r]; exact h)] at hv'
        cases Option.some.inj hv
        cases Option.some.inj hv'
        exact hmono r
      · rw [if_neg h] at hv
        rw [if_neg (by rw [hid r]; exact h)] at hv'
        exact ih v v' hv hv'
    · rw [if_neg hw] at hv'
      by_cases h : (r.id == u) = true
      · rw [if_pos h] at hv hv'
        cases Option.some.inj hv
        cases Option.some.inj hv'
        exact Nat.le_refl _
      · rw [if_neg h] at hv hv'
        exact ih v v' hv hv'

/-- A read that already succeeds is unaffected by appending rows. -/
theorem versionOf_append_of_some (tbl l : UsersTable) (u : UserId) (v : Nat)
    (h : versionOf tbl u = some v) : versionOf (tbl ++ l) u = some v := by
  induction tbl with
  | nil => cases h
  | cons r rest ih =>
    rw [List.cons_append]
    simp only [versionOf] at h ⊢
    by_cases hr : (r.id == u) = true
    · rwa [if_pos hr] at h ⊢
    · rw [if_neg hr] at h ⊢
      exact ih h

/-- C5: a successful change_username or change_display_name moves the
profile_version of the user from v to exactly v + 1, and across every
write operation of user.rs the profile_version of a user never
decreases. -/
theorem profile_version_steps (tbl : UsersTable) (u : UserId) :
    (∀ (name : String) (tbl' : UsersTable),
        change_username tbl u name = (tbl', none) →
        versionOf tbl' u = (versionOf tbl u).map (fun v => v + 1)) ∧
    (∀ (name : String) (tbl' : UsersTable),
        change_display_name tbl u name = (tbl', none) →
        versionOf tbl' u = (versionOf tbl u).map (fun v => v + 1)) ∧
    (∀ (op : UserOp) (v v' : Nat), versionOf tbl u = some v →
        versionOf (applyUserOp op tbl) u = some v' → v ≤ v') := by
  refine ⟨?_, ?_, ?_⟩
  · intro name tbl' h
    unfold change_username at h
    split_ifs at h with h1 h2
    · injection h with ha hb; exact Option.noConfusion hb
    · injection h with ha hb
      subst ha
      exact versionOf_map_plus_one tbl u _ (fun r => rfl) (fun r => rfl)
    · injection h with ha hb; exact Option.noConfusion hb
  · intro name tbl' h
    unfold change_display_name at h
    split_ifs at h with h1
    · injection h with ha hb
      subst ha
      exact versionOf_map_plus_one tbl u _ (fun r => rfl) (fun r => rfl)
    · injection h with ha hb; exact Option.noConfusion hb
  · intro op v v' hv hv'
    have same : versionOf tbl u = some v' → v ≤ v' := by
      intro hv2
      rw [hv] at hv2
      exact Nat.le_of_eq (Option.some.inj hv2)
    cases op with
    | opChangeUsername user name =>
      simp only [applyUserOp] at hv'
      unfold change_username at hv'
      split_ifs at hv' with h1 h2
      · exact same hv'
      · exact versionOf_map_ge tbl user u
          (fun r => { r with username := name
                             profile_version := r.profile_version + 1 })
          (fun r => rfl) (fun r => Nat.le_succ _) v v' hv hv'
      · exact same hv'
    | opChangeDisplayName user name =>
      simp only [applyUserOp] at hv'
      unfold change_display_name at hv'
      split_ifs at hv' with h1
      · exact versionOf_map_ge tbl user u
          (fun r => { r with display_name := name
                             profile_version := r.profile_version + 1 })
          (fun r => rfl) (fun r => Nat.le_succ _) v v' hv hv'
      · exact same hv'
    | opChangePassword user hash hsv =>
      simp only [applyUserOp] at hv'
      unfold db_change_password at hv'
      split_ifs at hv' with h1
      · exact versionOf_map_ge tbl user u
          (fun r => { r with password_hash := hash
                             hash_scheme_version := hsv
                             compromised := false })
          (fun r => rfl) (fun r => Nat.le_refl _) v v' hv hv'
      · exact same hv'
    | opSetBanned user b =>
      simp only [applyUserOp] at hv'
      unfold set_banned at hv'
      split_ifs at hv' with h1
      · exact versionOf_map_ge tbl user u
          (fun r => { r with banned := b })
          (fun r => rfl) (fun r => Nat.le_refl _) v v' hv hv'
      · exact same hv'
    | opSetLocked user b =>
      simp only [applyUserOp] at hv'
      unfold set_locked at hv'
      split_ifs at hv' with h1
      · exact versionOf_map_ge tbl user u
          (fun r => { r with locked := b })
          (fun r => rfl) (fun r => Nat.le_refl _) v v' hv hv'
      · exact same hv'
    | opCreateUser rec =>
      simp only [applyUserOp] at hv'
      unfold create_user at hv'
      split_ifs at hv' with h1
      · exact same hv'
      · rw [versionOf_append_of_some tbl [rec] u v hv] at hv'
        exact Nat.le_of_eq (Option.some.inj hv')

/-- C5 witness: renaming the single user alice (profile_version 0) to bob
succeeds and moves her profile_version to exactly 0 + 1. -/
theorem profile_version_steps_witness :
    versionOf (change_username [newUserRecord 1 "alice" "Alice" "h0" 1] 1 "bob").1 1
      = (versionOf [newUserRecord 1 "alice" "Alice" "h0" 1] 1).map (fun v => v + 1) :=
  (profile_version_steps [newUserRecord 1 "alice" "Alice" "h0" 1] 1).1 "bob"
    (change_username [newUserRecord 1 "alice" "Alice" "h0" 1] 1 "bob").1 rfl

/-- C6 (divergence evaluated): the Join handler of the community actor
panics via unimplemented!() on every input, so it never inserts a
membership row, never returns a rooms snapshot and never fans out
AddCommunity. -/
theorem join_handler_unimplemented (st : CommunityActorState) (j : JoinMsg) :
    handleJoin st j = none :=
  rfl

/-- An upgrade rewrites slots in place and keeps the key list. -/
theorem registryUpgrade_keys (reg : SessionRegistry) (u : UserId) (d : DeviceId)
    (hd : Nat) :
    (registryUpgrade reg u d hd).map Prod.fst = reg.map Prod.fst := by
  unfold registryUpgrade
  induction reg with
  | nil => rfl
  | cons e rest ih => by_cases he : e.1 = (u, d) <;> simp [he, ih]

/-- Claiming a Logout slot rewrites it in place and keeps the key list. -/
theorem registryClaim_keys (reg : SessionRegistry) (u : UserId) (d : DeviceId) :
    (reg.map (fun e =>
        if e.1 = (u, d) then (e.1, SessionSlot.inserting) else e)).map Prod.fst
      = reg.map Prod.fst := by
  induction reg with
  | nil => rfl
  | cons e rest ih => by_cases he : e.1 = (u, d) <;> simp [he, ih]

/-- A teardown rewrites the slot in place and keeps the key list. -/
theorem removeAndNotify_keys (reg : SessionRegistry) (u : UserId) (d : DeviceId) :
    ((removeAndNotify reg u d).1).map Prod.fst = reg.map Prod.fst := by
  unfold removeAndNotify
  induction reg with
  | nil => rfl
  | cons e rest ih => by_cases he : e.1 = (u, d) <;> simp [he] <;> simpa using ih

/-- A key with no slot is absent from the key list. -/
theorem slotOf_none_not_mem (reg : SessionRegistry) (u : UserId) (d : DeviceId)
    (h : slotOf reg u d = none) : (u, d) ∉ reg.map Prod.fst := by
  induction reg with
  | nil => simp
  | cons e rest ih =>
    simp only [slotOf] at h
    by_cases he : e.1 = (u, d)
    · rw [if_pos he] at h; cases h
    · rw [if_neg he] at h
      simp only [List.map_cons, List.mem_cons]
      rintro (heq | hmem)
      · exact he heq.symm
      · exact ih h hmem

/-- Every registry transition preserves key uniqueness. -/
theorem registryOp_preserves_nodup (reg : SessionRegistry) (op : RegistryOp)
    (h : (reg.map Prod.fst).Nodup) :
    ((applyRegistryOp op reg).map Prod.fst).Nodup := by
  cases op with
  | opLogin u d hd =>
    rcases hslot : slotOf reg u d with _ | slot
    · simp only [applyRegistryOp, login, registryInsert, hslot]
      rw [registryUpgrade_keys, List.map_append]
      simp only [List.map_cons, List.map_nil]
      rw [List.nodup_append]
      refine ⟨h, List.nodup_singleton _, ?_⟩
      intro k hk hk'
      simp only [List.mem_singleton] at hk'
      subst hk'
      exact slotOf_none_not_mem reg u d hslot hk
    · cases slot <;> simp only [applyRegistryOp, login, registryInsert, hslot]
      · exact h
      · exact h
      · rw [registryUpgrade_keys, registryClaim_keys]
        exact h
  | opRemoveAndNotify u d =>
    simp only [applyRegistryOp]
    rw [removeAndNotify_keys]
    exact h

/-- C3 counterexample: with device 2 of user 1 holding an Active session
with handle 7, a second successful authentication on the same device is
answered with TokenInUse; the registry is left untouched and no
SessionLoggedOut is delivered, so the previous session is not evicted. -/
theorem second_login_rejected_without_eviction :
    login [((1, 2), SessionSlot.active 7)] 1 2 9
        = (Except.error AuthErr.tokenInUse, []) ∧
      applyRegistryOp (RegistryOp.opLogin 1 2 9) [((1, 2), SessionSlot.active 7)]
        = [((1, 2), SessionSlot.active 7)] := by
  constructor <;> rfl

/-- C3 amended: every reachable registry holds at most one slot per
(user, device) key, and a login attempt for a device whose slot is Active
is rejected with TokenInUse, delivering no SessionLoggedOut event. -/
theorem at_most_one_session_per_device (ops : List RegistryOp)
    (reg : SessionRegistry) (u : UserId) (d : DeviceId) (h h2 : Nat)
    (hactive : slotOf reg u d = some (SessionSlot.active h)) :
    ((runRegistryOps ops).map Prod.fst).Nodup ∧
      login reg u d h2 = (Except.error AuthErr.tokenInUse, []) := by
  constructor
  · unfold runRegistryOps
    have gen : ∀ (l : List RegistryOp) (r : SessionRegistry),
        (r.map Prod.fst).Nodup →
        ((l.foldl (fun reg op => applyRegistryOp op reg) r).map Prod.fst).Nodup := by
      intro l
      induction l with
      | nil => intro r hr; exact hr
      | cons op rest ih =>
        intro r hr
        exact ih _ (registryOp_preserves_nodup r op hr)
    exact gen ops [] (by simp)
  · unfold login registryInsert
    rw [hactive]

/-- C3 amended witness: after one login the registry keys are unique, and
a second login on the occupied device is rejected with TokenInUse. -/
theorem at_most_one_session_per_device_witness :
    ((runRegistryOps [RegistryOp.opLogin 1 2 7]).map Prod.fst).Nodup ∧
      login [((1, 2), SessionSlot.active 7)] 1 2 9
        = (Except.error AuthErr.tokenInUse, []) :=
  at_most_one_session_per_device [RegistryOp.opLogin 1 2 7]
    [((1, 2), SessionSlot.active 7)] 1 2 7 9 rfl

/-- C7 counterexample: user 1 has tokens on devices 5 and 6; a fully
successful password change through the request handler leaves both token
rows in place, so the other tokens of the user are not invalidated. -/
theorem change_password_leaves_other_tokens_cx :
    ((handler_change_password 0
          ⟨[⟨1, "alice", "Alice", 0, "digest:old", 1, true, false, false⟩],
            [⟨5, 1⟩, ⟨6, 1⟩]⟩ 1 "old" "newpassword").2 = Except.ok ()) ∧
      ((handler_change_password 0
          ⟨[⟨1, "alice", "Alice", 0, "digest:old", 1, true, false, false⟩],
            [⟨5, 1⟩, ⟨6, 1⟩]⟩ 1 "old" "newpassword").1.tokens
        = [⟨5, 1⟩, ⟨6, 1⟩]) := by
  constructor <;> rfl

/-- C7 amended: a successful change_password replaces the password hash
and hash scheme version of the user and clears the compromised flag, and
it leaves the login-token table exactly as it was: no token of the user
is invalidated. -/
theorem change_password_updates_user_only (min_len : Nat) (st : ServerState)
    (user : UserId) (old_password new_password : String) (st' : ServerState)
    (h : handler_change_password min_len st user old_password new_password
          = (st', Except.ok ())) :
    st'.tokens = st.tokens ∧
      st'.users = st.users.map (fun r =>
        if r.id == user then
          { r with password_hash := (hashPassword new_password).1
                   hash_scheme_version := (hashPassword new_password).2
                   compromised := false }
        else r) := by
  unfold handler_change_password at h
  split at h
  · simp at h
  · split at h
    · simp at h
    · split at h
      · simp at h
      · rcases hdb : db_change_password st.users user
            (hashPassword new_password).1 (hashPassword new_password).2
          with ⟨users', err⟩
        rw [hdb] at h
        cases err with
        | none =>
          injection h with hA hB
          subst hA
          unfold db_change_password at hdb
          split at hdb
          · injection hdb with ha hb
            exact ⟨rfl, ha.symm⟩
          · injection hdb with ha hb
            exact Option.noConfusion hb
        | some e => simp at h

/-- C7 amended witness: the concrete successful change of the password of
user 1 rewrites her user row and returns the token table unchanged. -/
theorem change_password_updates_user_only_witness :
    ((handler_change_password 0
          ⟨[⟨1, "alice", "Alice", 0, "digest:old", 1, true, false, false⟩],
            [⟨5, 1⟩, ⟨6, 1⟩]⟩ 1 "old" "newpassword").1).tokens
        = [⟨5, 1⟩, ⟨6, 1⟩] ∧
      ((handler_change_password 0
          ⟨[⟨1, "alice", "Alice", 0, "digest:old", 1, true, false, false⟩],
            [⟨5, 1⟩, ⟨6, 1⟩]⟩ 1 "old" "newpassword").1).users
        = [⟨1, "alice", "Alice", 0, "digest:old", 1, true, false, false⟩].map (fun r =>
            if r.id == 1 then
              { r with password_hash := (hashPassword "newpassword").1
                       hash_scheme_version := (hashPassword "newpassword").2
                       compromised := false }
            else r) :=
  change_password_updates_user_only 0
    ⟨[⟨1, "alice", "Alice", 0, "digest:old", 1, true, false, false⟩],
      [⟨5, 1⟩, ⟨6, 1⟩]⟩ 1 "old" "newpassword"
    (handler_change_password 0
      ⟨[⟨1, "alice", "Alice", 0, "digest:old", 1, true, false, false⟩],
        [⟨5, 1⟩, ⟨6, 1⟩]⟩ 1 "old" "newpassword").1 rfl

/-- C8 (divergence evaluated): with alice present in users but without an
administrators row, add-admin panics (the process aborts with a nonzero
exit) instead of promoting her, because set_admin_permissions is an
UPDATE that modifies no row for such a user.  The panic on an unknown
username and the demotion of an existing admin behave as the claim
says. -/
theorem add_admin_panics_for_fresh_admin :
    addAdmin ⟨[newUserRecord 1 "alice" "Alice" "h0" 1], []⟩ "alice"
        = CliOutcome.panicked ∧
      addAdmin ⟨[newUserRecord 1 "alice" "Alice" "h0" 1], []⟩ "bob"
        = CliOutcome.panicked ∧
      removeAdmin ⟨[newUserRecord 1 "alice" "Alice" "h0" 1], [(1, 3)]⟩ "alice"
        = CliOutcome.ok ⟨[newUserRecord 1 "alice" "Alice" "h0" 1], [(1, 0)]⟩ := by
  refine ⟨rfl, rfl, rfl⟩

/-- C9 counterexample: a JoinCommunity request with a 12-character invite
code from a session without the JOIN_COMMUNITIES permission is answered
with AccessDenied, not InvalidInviteCode. -/
theorem join_long_code_access_denied_cx :
    (join_community 0 "aaaaaaaaaaaa" [] (fun id => Except.ok id)).response
        = Except.error ErrResponse.accessDenied ∧
      ("aaaaaaaaaaaa" : String).length > 11 :=
  ⟨rfl, by decide⟩

/-- C9 amended: for a session holding the JOIN_COMMUNITIES permission,
any invite code longer than 11 characters is rejected with
InvalidInviteCode before the invite-code store is consulted. -/
theorem join_long_code_rejected_without_store (perms : Nat) (code : String)
    (invites : List (String × CommunityId))
    (joinById : CommunityId → Except ErrResponse CommunityId)
    (hperm : has_perms perms JOIN_COMMUNITIES = true)
    (hlen : code.length > 11) :
    (join_community perms code invites joinById).response
        = Except.error ErrResponse.invalidInviteCode ∧
      (join_community perms code invites joinById).store_consulted = false := by
  unfold join_community
  rw [hperm]
  simp [hlen]

/-- C9 amended witness: permission bits 16 (JOIN_COMMUNITIES) with the
12-character code from the counterexample and a nonempty invite table. -/
theorem join_long_code_rejected_without_store_witness :
    (join_community 16 "aaaaaaaaaaaa" [("ab", 5)]
          (fun id => Except.ok id)).response
        = Except.error ErrResponse.invalidInviteCode ∧
      (join_community 16 "aaaaaaaaaaaa" [("ab", 5)]
          (fun id => Except.ok id)).store_consulted = false :=
  join_long_code_rejected_without_store 16 "aaaaaaaaaaaa" [("ab", 5)]
    (fun id => Except.ok id) (by decide) (by decide)

/-- In a duplicate-free list, the match count of an element is one if it
is present and zero otherwise. -/
theorem countP_beq_nodup {α : Type} [DecidableEq α] (l : List α) (a : α)
    (h : l.Nodup) :
    l.countP (fun x => x == a) = if a ∈ l then 1 else 0 := by
  induction l with
  | nil => rfl
  | cons x xs ih =>
    rw [List.nodup_cons] at h
    rw [List.countP_cons]
    by_cases hx : x = a
    · subst hx
      have hnot : x ∉ xs := h.1
      simp [ih h.2, hnot]
    · have hax : ¬ a = x := fun hh => hx hh.symm
      simp [hx, hax, ih h.2]

/-- Counting token rows by device equals counting the device column. -/
theorem token_countP_eq (tokens : List TokenRecord) (device : DeviceId) :
    tokens.countP (fun t => t.device == device)
      = (tokens.map TokenRecord.device).countP (fun x => x == device) := by
  induction tokens with
  | nil => rfl
  | cons t rest ih => simp [List.countP_cons, ih]

/-- C10: assuming device is the primary key of the token table, log_out
answers DeviceDoesNotExist exactly when no token row of the requesting
device existed, notifies LogoutThisSession exactly when a row was
deleted, and leaves the table with every row of that device removed. -/
theorem log_out_revokes_iff (tokens : List TokenRecord) (device : DeviceId)
    (hpk : (tokens.map TokenRecord.device).Nodup) :
    ((log_out tokens device).response
          = Except.error ErrResponse.deviceDoesNotExist ↔
        device ∉ tokens.map TokenRecord.device) ∧
      ((log_out tokens device).notified_logout = true ↔
        device ∈ tokens.map TokenRecord.device) ∧
      (log_out tokens device).tokens
        = tokens.filter (fun t => !(t.device == device)) := by
  have hcount : tokens.countP (fun t => t.device == device)
      = if device ∈ tokens.map TokenRecord.device then 1 else 0 := by
    rw [token_countP_eq]
    exact countP_beq_nodup _ _ hpk
  by_cases hm : device ∈ tokens.map TokenRecord.device
  · simp [log_out, revoke_token, hcount, hm]
  · simp [log_out, revoke_token, hcount, hm]

/-- C10 witness: tokens for devices 5 and 6; logging device 5 out deletes
its row, notifies the session, and does not answer DeviceDoesNotExist. -/
theorem log_out_revokes_iff_witness :
    (((log_out [⟨5, 1⟩, ⟨6, 2⟩] 5).response
          = Except.error ErrResponse.deviceDoesNotExist ↔
        5 ∉ ([⟨5, 1⟩, ⟨6, 2⟩] : List TokenRecord).map TokenRecord.device) ∧
      ((log_out [⟨5, 1⟩, ⟨6, 2⟩] 5).notified_logout = true ↔
        5 ∈ ([⟨5, 1⟩, ⟨6, 2⟩] : List TokenRecord).map TokenRecord.device) ∧
      (log_out [⟨5, 1⟩, ⟨6, 2⟩] 5).tokens
        = ([⟨5, 1⟩, ⟨6, 2⟩] : List TokenRecord).filter
            (fun t => !(t.device == 5))) :=
  log_out_revokes_iff [⟨5, 1⟩, ⟨6, 2⟩] 5 (by decide)
